import Mathlib

/-!
Shallow embedding of the SignalR client (edcsu/signalrclient).

The embedded code lives in two files:
* `src/src/services/signalrService.js` — the `SignalRService` class: raw
  connection bookkeeping (`connection`, `isConnected` fields) and the remote
  operations `startConnection`, `joinGroup`, `leaveGroup`,
  `sendMessageToGroup`, `stopConnection`, plus the `onreconnected` handler.
* `src/src/hooks/useSignalR.js` — the `useSignalR` hook: React state
  (`isConnected`, `isConnecting`, `connectionError`, `messages`,
  `joinedGroups`) and the actions `connect`, `disconnect`, `joinGroup`,
  `leaveGroup`, `sendMessageToGroup`, `clearMessages`.

Asynchronous JS methods become pure Lean functions from an explicit state to
a new state, a result, and a trace of the operations performed on the
underlying `@microsoft/signalr` channel (building it, starting it, invoking a
hub method, stopping it).  Outcomes of the channel layer that the embedded
code merely observes (whether `connection.start()` resolves, whether an
`invoke` resolves, which error message a rejection carries) are passed in as
parameters.
-/

/-- A remote hub invocation issued through `connection.invoke(...)`. -/
inductive RemoteCall where
  | joinGroup (groupName : String)
  | leaveGroup (groupName : String)
  | sendMessageToGroup (groupName message : String)
  deriving DecidableEq, Repr

/-- An operation performed on the underlying channel object. -/
inductive ChannelOp where
  | build
  | start (hubUrl : String)
  | invoke (call : RemoteCall)
  | stop
  deriving DecidableEq, Repr

/-- The mutable fields of the `SignalRService` class that the embedded
operations read and write: `this.connection` (modelled as the Boolean
`hasConnection`, i.e. `this.connection !== null`) and `this.isConnected`. -/
structure ServiceState where
  hasConnection : Bool
  isConnected : Bool
  deriving DecidableEq, Repr

/-- The service as constructed: `this.connection = null`,
`this.isConnected = false` (signalrService.js constructor). -/
def ServiceState.init : ServiceState :=
  { hasConnection := false, isConnected := false }

/-- `SignalRService.startConnection(hubUrl)` (signalrService.js lines 13-81):
builds the connection object, registers handlers, then awaits
`connection.start()`.  On success it sets `isConnected = true` and returns
`true`; on failure it sets `isConnected = false` and rethrows the error
(`startErr`).  `startOk` is whether `connection.start()` resolves. -/
def SignalRService.startConnection (st : ServiceState) (startOk : Bool)
    (startErr : String) (hubUrl : String) :
    Except String Bool × ServiceState × List ChannelOp :=
  let st := { st with hasConnection := true }
  if startOk then
    (.ok true, { st with isConnected := true }, [.build, .start hubUrl])
  else
    (.error startErr, { st with isConnected := false }, [.build, .start hubUrl])

/-- `SignalRService.joinGroup(groupName)` (signalrService.js lines 84-97):
throws `'SignalR connection is not established'` unless
`this.isConnected && this.connection`; otherwise awaits
`invoke('JoinGroup', groupName)`, returning `true` on success and rethrowing
the invoke error (`invokeErr`) on failure.  `invokeOk` is whether the invoke
resolves. -/
def SignalRService.joinGroup (st : ServiceState) (invokeOk : Bool)
    (invokeErr : String) (groupName : String) :
    Except String Bool × List ChannelOp :=
  if !st.isConnected || !st.hasConnection then
    (.error "SignalR connection is not established", [])
  else if invokeOk then
    (.ok true, [.invoke (.joinGroup groupName)])
  else
    (.error invokeErr, [.invoke (.joinGroup groupName)])

/-- `SignalRService.leaveGroup(groupName)` (signalrService.js lines 100-113):
same guard as `joinGroup`, then `invoke('LeaveGroup', groupName)`. -/
def SignalRService.leaveGroup (st : ServiceState) (invokeOk : Bool)
    (invokeErr : String) (groupName : String) :
    Except String Bool × List ChannelOp :=
  if !st.isConnected || !st.hasConnection then
    (.error "SignalR connection is not established", [])
  else if invokeOk then
    (.ok true, [.invoke (.leaveGroup groupName)])
  else
    (.error invokeErr, [.invoke (.leaveGroup groupName)])

/-- `SignalRService.sendMessageToGroup(groupName, message)` (signalrService.js
lines 116-129): same guard, then
`invoke('SendMessageToGroup', groupName, message)`. -/
def SignalRService.sendMessageToGroup (st : ServiceState) (invokeOk : Bool)
    (invokeErr : String) (groupName message : String) :
    Except String Bool × List ChannelOp :=
  if !st.isConnected || !st.hasConnection then
    (.error "SignalR connection is not established", [])
  else if invokeOk then
    (.ok true, [.invoke (.sendMessageToGroup groupName message)])
  else
    (.error invokeErr, [.invoke (.sendMessageToGroup groupName message)])

/-- The `onreconnected` handler registered in `startConnection`
(signalrService.js lines 49-52): it logs the new connection id and sets
`this.isConnected = true`.  It performs no channel operation and issues no
remote call. -/
def SignalRService.onreconnected (st : ServiceState) :
    ServiceState × List ChannelOp :=
  ({ st with isConnected := true }, [])

/-- `SignalRService.stopConnection()` (signalrService.js lines 205-215):
if a connection object exists, awaits `connection.stop()`; on success sets
`isConnected = false`; a stop error is caught and only logged (so
`isConnected` is left as it was).  The method never rejects.  `stopOk` is
whether `connection.stop()` resolves. -/
def SignalRService.stopConnection (st : ServiceState) (stopOk : Bool) :
    ServiceState × List ChannelOp :=
  if st.hasConnection then
    if stopOk then ({ st with isConnected := false }, [.stop])
    else (st, [.stop])
  else (st, [])

/-- An entry of the hook's `messages` list (useSignalR.js: the objects pushed
by the `onMessage` / `onGroupMessage` listeners).  The JS `timestamp` is a
locally captured `new Date()`; it is modelled as an opaque `Nat`. -/
structure Message where
  user : String
  message : String
  groupName : Option String
  timestamp : Nat
  type : String
  deriving DecidableEq, Repr

/-- The React state of the `useSignalR` hook together with the singleton
service's state (useSignalR.js lines 5-9 / 153-157). -/
structure HookState where
  isConnected : Bool
  isConnecting : Bool
  connectionError : Option String
  messages : List Message
  joinedGroups : List String
  service : ServiceState
  deriving DecidableEq, Repr

/-- The hook's initial React state: all flags false, no error, empty message
log and group list, service as constructed. -/
def HookState.init : HookState :=
  { isConnected := false, isConnecting := false, connectionError := none,
    messages := [], joinedGroups := [], service := ServiceState.init }

/-- JavaScript `String.prototype.trim()`: strip leading and trailing
whitespace, modelled on the string's character list. -/
def jsTrim (s : String) : String :=
  ⟨((s.data.dropWhile Char.isWhitespace).reverse.dropWhile Char.isWhitespace).reverse⟩

/-- Occurrence of `pat` as a contiguous sublist of `s`. -/
def jsIncludesAux : List Char → List Char → Bool
  | [], pat => pat.isEmpty
  | c :: rest, pat => pat.isPrefixOf (c :: rest) || jsIncludesAux rest pat

/-- JavaScript `String.prototype.includes(pat)`, modelled on character
lists. -/
def jsIncludes (s pat : String) : Bool :=
  jsIncludesAux s.data pat.data

/-- The error-message refinement inside `connect`'s catch block
(useSignalR.js lines 199-210): specific substrings of the thrown message are
replaced by friendlier texts; otherwise the original message is kept. -/
def mapConnectError (m : String) : String :=
  if jsIncludes m "Failed to start the connection" then
    "Cannot connect to SignalR hub. Please check if the server is running and the URL is correct."
  else if jsIncludes m "Connection closed with an error" then
    "Connection was closed by the server. This may be due to authentication issues or server configuration."
  else if jsIncludes m "ECONNREFUSED" then
    "Connection refused. Please verify the server is running and accessible."
  else if jsIncludes m "certificate" then
    "SSL certificate error. For development, you may need to accept the certificate or use HTTP instead of HTTPS."
  else m

/-- `useSignalR.connect(url)` (useSignalR.js lines 160-217).
If `isConnecting || isConnected` it returns at once (no error recorded, no
channel touched).  Otherwise it sets `isConnecting`, clears the error, and:
rejects `'Hub URL is required'` when the url is empty/whitespace, rejects
`'Invalid Hub URL format'` when `new URL(url)` throws (modelled by the
parameter `isValidUrl`), and only then calls
`signalRService.startConnection(url)`.  A thrown error is mapped by
`mapConnectError` and stored in `connectionError`; the `finally` block resets
`isConnecting`. -/
def useSignalR.connect (st : HookState) (isValidUrl : String → Bool)
    (startOk : Bool) (startErr : String) (url : String) :
    HookState × List ChannelOp :=
  if st.isConnecting || st.isConnected then (st, [])
  else
    let st := { st with isConnecting := true, connectionError := none }
    if jsTrim url = "" then
      ({ st with connectionError := some (mapConnectError "Hub URL is required"),
                 isConnected := false, isConnecting := false }, [])
    else if !isValidUrl url then
      ({ st with connectionError := some (mapConnectError "Invalid Hub URL format"),
                 isConnected := false, isConnecting := false }, [])
    else
      match SignalRService.startConnection st.service startOk startErr url with
      | (.ok _, svc, ops) =>
          ({ st with service := svc, isConnected := true, isConnecting := false }, ops)
      | (.error e, svc, ops) =>
          ({ st with service := svc,
                     connectionError := some (mapConnectError e),
                     isConnected := false, isConnecting := false }, ops)

/-- `useSignalR.disconnect()` (useSignalR.js lines 220-229): awaits
`stopConnection()` (which never rejects), then sets `isConnected = false`,
`joinedGroups = []`, `messages = []`. -/
def useSignalR.disconnect (st : HookState) (stopOk : Bool) :
    HookState × List ChannelOp :=
  let r := SignalRService.stopConnection st.service stopOk
  ({ st with service := r.1, isConnected := false,
             joinedGroups := [], messages := [] }, r.2)

/-- The updater passed to `setJoinedGroups` in `useSignalR.joinGroup`
(useSignalR.js lines 235-240): append the name unless already present. -/
def addGroup (prev : List String) (groupName : String) : List String :=
  if groupName ∈ prev then prev else prev ++ [groupName]

/-- `useSignalR.joinGroup(groupName)` (useSignalR.js lines 232-246): awaits
the service call; on success records the group via `addGroup` and returns
`true`; on failure stores `'Failed to join group: ...'` in `connectionError`
and returns `false`. -/
def useSignalR.joinGroup (st : HookState) (invokeOk : Bool)
    (invokeErr : String) (groupName : String) :
    HookState × Bool × List ChannelOp :=
  match SignalRService.joinGroup st.service invokeOk invokeErr groupName with
  | (.ok _, ops) =>
      ({ st with joinedGroups := addGroup st.joinedGroups groupName }, true, ops)
  | (.error e, ops) =>
      ({ st with connectionError := some ("Failed to join group: " ++ e) }, false, ops)

/-- `useSignalR.leaveGroup(groupName)` (useSignalR.js lines 249-258): awaits
the service call; on success filters the name out of `joinedGroups` and
returns `true`; on failure stores `'Failed to leave group: ...'` and returns
`false`. -/
def useSignalR.leaveGroup (st : HookState) (invokeOk : Bool)
    (invokeErr : String) (groupName : String) :
    HookState × Bool × List ChannelOp :=
  match SignalRService.leaveGroup st.service invokeOk invokeErr groupName with
  | (.ok _, ops) =>
      ({ st with joinedGroups := st.joinedGroups.filter (· ≠ groupName) }, true, ops)
  | (.error e, ops) =>
      ({ st with connectionError := some ("Failed to leave group: " ++ e) }, false, ops)

/-- `useSignalR.sendMessageToGroup(groupName, message)` (useSignalR.js lines
261-269): awaits the service call; returns `true` on success; on failure
stores `'Failed to send message: ...'` and returns `false`.  It never touches
`joinedGroups` or `messages`. -/
def useSignalR.sendMessageToGroup (st : HookState) (invokeOk : Bool)
    (invokeErr : String) (groupName message : String) :
    HookState × Bool × List ChannelOp :=
  match SignalRService.sendMessageToGroup st.service invokeOk invokeErr groupName message with
  | (.ok _, ops) => (st, true, ops)
  | (.error e, ops) =>
      ({ st with connectionError := some ("Failed to send message: " ++ e) }, false, ops)

/-- Delivery of the channel's `reconnected` notification to the client: the
only registered reconnection handler is the service's `onreconnected`
(signalrService.js lines 49-52); the hook registers nothing for it, so the
hook's React state — in particular `joinedGroups` — is untouched. -/
def useSignalR.reconnectedDelivered (st : HookState) :
    HookState × List ChannelOp :=
  let r := SignalRService.onreconnected st.service
  ({ st with service := r.1 }, r.2)

/-- Modelled from the spec: the closed error taxonomy of the ErrorClassifier
(§4.5), a component the repository does not implement as code — the source
carries raw `Error` message strings only. -/
inductive ErrKind where
  | InvalidUrl
  | NotConnected
  | AlreadyActive
  | NegotiationFailed
  | TransportClosed
  | InvokeFailed
  | ServerReportedError
  | GroupNotReady
  | InvalidGroupName
  | EmptyMessage
  | UnknownGroup
  | Unknown (description : String)
  deriving DecidableEq, Repr

/-- Modelled from the spec: the ErrorClassifier (§4.5) "classification is by
inspecting the failure's message", applied to the concrete messages the
source throws: the two url-validation messages of `connect`
(useSignalR.js lines 169/176) classify as `InvalidUrl`, and the guard
message of the service's remote operations (signalrService.js line 86)
classifies as `NotConnected`; anything else is the `Unknown` fallback
carrying the original description. -/
def classify (msg : String) : ErrKind :=
  if msg = "Hub URL is required" || msg = "Invalid Hub URL format" then
    .InvalidUrl
  else if msg = "SignalR connection is not established" then
    .NotConnected
  else
    .Unknown msg

/-- The retry-delay schedule passed to `withAutomaticReconnect`
(signalrService.js line 22): `[0, 2000, 10000, 30000]`, in milliseconds. -/
def reconnectDelays : List Nat := [0, 2000, 10000, 30000]

/-- Modelled from the spec: the ReconnectionPolicy semantics (§4.4) of the
`withAutomaticReconnect(schedule)` channel feature, whose implementation is
in the `@microsoft/signalr` library and not under src — "pure mapping
attempt-index → delay, from a configured finite schedule; attempts beyond
the schedule length are not made".  `none` means: stop, no further
attempt. -/
def nextRetryDelay (attempt : Nat) : Option Nat :=
  reconnectDelays[attempt]?

/-- Modelled from the spec: the reconnecting portion of the connection state
machine (§4.1), driven by `nextRetryDelay`; the manager itself is the
channel library, not code under src. -/
inductive ConnState where
  | Connected
  | Reconnecting (attempt : Nat)
  | DisconnectedFailed
  deriving DecidableEq, Repr

/-- Modelled from the spec: one round of the reconnecting loop (§4.1).  In
`Reconnecting i` the policy is consulted: with no delay left the state
settles at `Disconnected(Failed)` and no attempt is made; with a delay, one
attempt is made (`attemptOk` tells whether it succeeded) and the state moves
to `Connected` or on to the next attempt index.  The returned list is the
delays of the attempts actually made this round. -/
def reconnectStep (attemptOk : Bool) : ConnState → ConnState × List Nat
  | .Reconnecting i =>
      match nextRetryDelay i with
      | none => (.DisconnectedFailed, [])
      | some d =>
          if attemptOk then (.Connected, [d]) else (.Reconnecting (i + 1), [d])
  | s => (s, [])

/-- Modelled from the spec: running the reconnecting loop while every
attempt fails, with `fuel` bounding the rounds; returns the delays of all
attempts made and the final state. -/
def runFailingReconnect : Nat → ConnState → List Nat × ConnState
  | 0, s => ([], s)
  | fuel + 1, s =>
      match reconnectStep false s with
      | (s', ds) =>
          if s' = s then (ds, s')
          else
            let r := runFailingReconnect fuel s'
            (ds ++ r.1, r.2)

/-- One group action of the hook, with the channel-layer outcome of its
invoke recorded alongside (needed for claims about arbitrary interleavings
of joins and leaves). -/
inductive GroupOp where
  | join (invokeOk : Bool) (invokeErr : String) (groupName : String)
  | leave (invokeOk : Bool) (invokeErr : String) (groupName : String)
  deriving DecidableEq, Repr

/-- Apply one `GroupOp` through the hook's actions, keeping the state only. -/
def applyGroupOp (st : HookState) : GroupOp → HookState
  | .join ok e g => (useSignalR.joinGroup st ok e g).1
  | .leave ok e g => (useSignalR.leaveGroup st ok e g).1

/-- Run a sequence of hook group actions. -/
def runGroupOps (st : HookState) (ops : List GroupOp) : HookState :=
  ops.foldl applyGroupOp st

/-! ## Concrete states used by witnesses and counterexamples -/

/-- A hook state whose connection is established: both service flags set,
nothing joined yet. -/
def stConnected : HookState :=
  { isConnected := true, isConnecting := false, connectionError := none,
    messages := [], joinedGroups := [],
    service := { hasConnection := true, isConnected := true } }

/-- A connected hook state that tracks the single group `"room1"`. -/
def stTracked : HookState :=
  { stConnected with joinedGroups := ["room1"] }

/-! ## Helper lemmas -/

/-- Once the state has settled at `Disconnected(Failed)`, running the
reconnect loop makes no further attempt, whatever the fuel. -/
theorem runFailingReconnect_failed (fuel : Nat) :
    runFailingReconnect fuel ConnState.DisconnectedFailed
      = ([], ConnState.DisconnectedFailed) := by
  cases fuel <;> simp [runFailingReconnect, reconnectStep]

/-! ## Claims -/

/-- C10: after `disconnect()` resolves, regardless of the prior state, the
connected flag is false, the tracked group set is empty, and the message log
is empty — disconnect itself clears the message log and the joined-groups
list. -/
theorem C10_disconnect_clears_state (st : HookState) (stopOk : Bool) :
    (useSignalR.disconnect st stopOk).1.isConnected = false ∧
    (useSignalR.disconnect st stopOk).1.joinedGroups = [] ∧
    (useSignalR.disconnect st stopOk).1.messages = [] :=
  ⟨rfl, rfl, rfl⟩

/-- C8: every remote invocation (joinGroup, leaveGroup, sendMessageToGroup)
is legal only when the connection is established; in any other state the
operation fails with the `NotConnected`-classified error without delegating
anything to the channel (empty channel trace). -/
theorem C8_invoke_requires_connected (st : ServiceState) (ok : Bool)
    (e g m : String)
    (h : st.isConnected = false ∨ st.hasConnection = false) :
    SignalRService.joinGroup st ok e g
      = (.error "SignalR connection is not established", []) ∧
    SignalRService.leaveGroup st ok e g
      = (.error "SignalR connection is not established", []) ∧
    SignalRService.sendMessageToGroup st ok e g m
      = (.error "SignalR connection is not established", []) ∧
    classify "SignalR connection is not established" = ErrKind.NotConnected := by
  refine ⟨?_, ?_, ?_, by decide⟩ <;>
    rcases h with h | h <;>
      simp [SignalRService.joinGroup, SignalRService.leaveGroup,
        SignalRService.sendMessageToGroup, h]

/-- Witness for C8 at the freshly constructed (disconnected) service. -/
theorem C8_invoke_requires_connected_witness :
    (ServiceState.init.isConnected = false ∨ ServiceState.init.hasConnection = false) ∧
    (SignalRService.joinGroup ServiceState.init true "err" "g"
      = (.error "SignalR connection is not established", []) ∧
    SignalRService.leaveGroup ServiceState.init true "err" "g"
      = (.error "SignalR connection is not established", []) ∧
    SignalRService.sendMessageToGroup ServiceState.init true "err" "g" "m"
      = (.error "SignalR connection is not established", []) ∧
    classify "SignalR connection is not established" = ErrKind.NotConnected) :=
  ⟨Or.inl rfl,
   C8_invoke_requires_connected ServiceState.init true "err" "g" "m" (Or.inl rfl)⟩

/-- C4: the reconnection delays come from the configured schedule
`[0, 2000, 10000, 30000]` in that order; the policy yields no delay for any
attempt index past the schedule, and a run in which every attempt fails
makes exactly those 4 attempts and settles at `Disconnected(Failed)` — no
5th attempt is made no matter how much further the loop is run. -/
theorem C4_reconnect_schedule_exhaustion (fuel k : Nat) :
    nextRetryDelay 0 = some 0 ∧ nextRetryDelay 1 = some 2000 ∧
    nextRetryDelay 2 = some 10000 ∧ nextRetryDelay 3 = some 30000 ∧
    nextRetryDelay (4 + k) = none ∧
    runFailingReconnect (fuel + 5) (ConnState.Reconnecting 0)
      = (reconnectDelays, ConnState.DisconnectedFailed) := by
  refine ⟨rfl, rfl, rfl, rfl, ?_, ?_⟩
  · simp [nextRetryDelay, reconnectDelays]
  · show runFailingReconnect (fuel + 5) (ConnState.Reconnecting 0) = _
    simp only [runFailingReconnect, reconnectStep, nextRetryDelay,
      reconnectDelays, runFailingReconnect_failed]
    norm_num [runFailingReconnect_failed]

/-- C2: for every url that is the empty string or fails URL syntax
validation, `connect(url)` (called from the idle state) rejects with an
error classified `InvalidUrl` before any operation on the underlying channel
is performed: the channel trace is empty (nothing built or started) and the
service state is untouched. -/
theorem C2_connect_invalid_url_rejected (st : HookState)
    (isValidUrl : String → Bool) (startOk : Bool) (startErr url : String)
    (h1 : st.isConnecting = false) (h2 : st.isConnected = false)
    (hbad : jsTrim url = "" ∨ isValidUrl url = false) :
    (useSignalR.connect st isValidUrl startOk startErr url).2 = [] ∧
    (useSignalR.connect st isValidUrl startOk startErr url).1.service = st.service ∧
    ∃ msg, (useSignalR.connect st isValidUrl startOk startErr url).1.connectionError
        = some msg ∧ classify msg = ErrKind.InvalidUrl := by
  by_cases ht : jsTrim url = ""
  · refine ⟨?_, ?_, mapConnectError "Hub URL is required", ?_, by decide⟩ <;>
      simp [useSignalR.connect, h1, h2, ht]
  · rcases hbad with hbad | hbad
    · exact absurd hbad ht
    · refine ⟨?_, ?_, mapConnectError "Invalid Hub URL format", ?_, by decide⟩ <;>
        simp [useSignalR.connect, h1, h2, ht, hbad]

/-- Witness for C2: the empty url, from the initial hook state. -/
theorem C2_connect_invalid_url_rejected_witness :
    (HookState.init.isConnecting = false ∧ HookState.init.isConnected = false ∧
      (jsTrim "" = "" ∨ (fun _ => true) "" = false)) ∧
    ((useSignalR.connect HookState.init (fun _ => true) true "err" "").2 = [] ∧
    (useSignalR.connect HookState.init (fun _ => true) true "err" "").1.service
      = HookState.init.service ∧
    ∃ msg, (useSignalR.connect HookState.init (fun _ => true) true "err" "").1.connectionError
        = some msg ∧ classify msg = ErrKind.InvalidUrl) :=
  ⟨⟨rfl, rfl, Or.inl (by decide)⟩,
   C2_connect_invalid_url_rejected HookState.init (fun _ => true) true "err" ""
     rfl rfl (Or.inl (by decide))⟩

/-- C3 counterexample: with the hook already connected, `connect` does not
fail with `AlreadyActive` — it returns with the state unchanged (in
particular `connectionError` stays `none`: no error of any kind is reported)
and performs no channel operation. -/
theorem C3_counterexample :
    useSignalR.connect stConnected (fun _ => true) true "err"
        "https://localhost:7000/chathub" = (stConnected, []) ∧
    stConnected.connectionError = none :=
  ⟨rfl, rfl⟩

/-- C3 amended: `connect` called while already connecting or connected
returns immediately with the hook state completely unchanged and opens no
additional channel (empty trace); it reports no error at all — in
particular, it does not fail with `AlreadyActive`. -/
theorem C3_connect_while_active_is_silent_noop (st : HookState)
    (isValidUrl : String → Bool) (startOk : Bool) (startErr url : String)
    (h : st.isConnecting = true ∨ st.isConnected = true) :
    useSignalR.connect st isValidUrl startOk startErr url = (st, []) := by
  rcases h with h | h <;> simp [useSignalR.connect, h]

/-- Witness for the amended C3 at a concrete connected state. -/
theorem C3_connect_while_active_witness :
    (stConnected.isConnecting = true ∨ stConnected.isConnected = true) ∧
    useSignalR.connect stConnected (fun _ => false) false "err" "u"
      = (stConnected, []) :=
  ⟨Or.inr rfl,
   C3_connect_while_active_is_silent_noop stConnected (fun _ => false) false
     "err" "u" (Or.inr rfl)⟩

/-- The hook's `joinGroup` either records the group via `addGroup` (service
call succeeded) or leaves `joinedGroups` untouched (service call failed). -/
theorem joinGroup_joinedGroups_cases (st : HookState) (ok : Bool)
    (e g : String) :
    (useSignalR.joinGroup st ok e g).1.joinedGroups = addGroup st.joinedGroups g ∨
    (useSignalR.joinGroup st ok e g).1.joinedGroups = st.joinedGroups := by
  rcases h : SignalRService.joinGroup st.service ok e g with ⟨r, ops⟩
  cases r <;> simp [useSignalR.joinGroup, h]

/-- The hook's `leaveGroup` either filters the name out (service call
succeeded) or leaves `joinedGroups` untouched (service call failed). -/
theorem leaveGroup_joinedGroups_cases (st : HookState) (ok : Bool)
    (e g : String) :
    (useSignalR.leaveGroup st ok e g).1.joinedGroups
      = st.joinedGroups.filter (· ≠ g) ∨
    (useSignalR.leaveGroup st ok e g).1.joinedGroups = st.joinedGroups := by
  rcases h : SignalRService.leaveGroup st.service ok e g with ⟨r, ops⟩
  cases r <;> simp [useSignalR.leaveGroup, h]

/-- `addGroup` preserves freedom from duplicates. -/
theorem addGroup_nodup {l : List String} {g : String} (h : l.Nodup) :
    (addGroup l g).Nodup := by
  unfold addGroup
  split
  · exact h
  · rename_i hg
    simp [List.nodup_append, h, hg]

/-- One hook group action preserves freedom from duplicates. -/
theorem applyGroupOp_nodup (st : HookState) (op : GroupOp)
    (h : st.joinedGroups.Nodup) : (applyGroupOp st op).joinedGroups.Nodup := by
  cases op with
  | join ok e g =>
    rcases joinGroup_joinedGroups_cases st ok e g with h1 | h1 <;>
      simp only [applyGroupOp, h1]
    · exact addGroup_nodup h
    · exact h
  | leave ok e g =>
    rcases leaveGroup_joinedGroups_cases st ok e g with h1 | h1 <;>
      simp only [applyGroupOp, h1]
    · exact h.filter _
    · exact h

/-- Any sequence of hook group actions preserves freedom from duplicates. -/
theorem runGroupOps_nodup (ops : List GroupOp) (st : HookState)
    (h : st.joinedGroups.Nodup) : (runGroupOps st ops).joinedGroups.Nodup := by
  induction ops generalizing st with
  | nil => exact h
  | cons op rest ih => exact ih _ (applyGroupOp_nodup st op h)

/-- C9: group names are unique within the tracked set — starting from a
duplicate-free tracked set, every sequence of join and leave actions keeps
the list duplicate-free; and a `join` of an already-tracked name (whether
its invoke succeeds or fails) leaves the tracked set exactly unchanged. -/
theorem C9_tracked_groups_nodup (st : HookState) (ops : List GroupOp)
    (ok : Bool) (e g : String) (hnd : st.joinedGroups.Nodup)
    (hg : g ∈ st.joinedGroups) :
    (runGroupOps st ops).joinedGroups.Nodup ∧
    (useSignalR.joinGroup st ok e g).1.joinedGroups = st.joinedGroups := by
  refine ⟨runGroupOps_nodup ops st hnd, ?_⟩
  rcases joinGroup_joinedGroups_cases st ok e g with h1 | h1 <;> rw [h1]
  simp [addGroup, hg]

/-- Witness for C9: joining a fresh group, re-joining a tracked one, and
leaving, from a state tracking `"room1"`. -/
theorem C9_tracked_groups_nodup_witness :
    (stTracked.joinedGroups.Nodup ∧ "room1" ∈ stTracked.joinedGroups) ∧
    ((runGroupOps stTracked
        [GroupOp.join true "ie" "a", GroupOp.leave true "ie" "room1"]).joinedGroups.Nodup ∧
    (useSignalR.joinGroup stTracked true "ie" "room1").1.joinedGroups
      = stTracked.joinedGroups) :=
  ⟨⟨by decide, by decide⟩,
   C9_tracked_groups_nodup stTracked
     [GroupOp.join true "ie" "a", GroupOp.leave true "ie" "room1"]
     true "ie" "room1" (by decide) (by decide)⟩

/-- C1 counterexample: with `"room1"` tracked and the connection
established, delivering the `reconnected` notification issues no channel
operation at all — in particular no `JoinGroup` re-invoke — and a `send` to
`"room1"` immediately afterwards is issued to the network and succeeds
instead of failing with `GroupNotReady`. -/
theorem C1_counterexample :
    (useSignalR.reconnectedDelivered stTracked).2 = [] ∧
    (useSignalR.sendMessageToGroup (useSignalR.reconnectedDelivered stTracked).1
        true "ie" "room1" "hi").2.1 = true ∧
    (useSignalR.sendMessageToGroup (useSignalR.reconnectedDelivered stTracked).1
        true "ie" "room1" "hi").2.2
      = [ChannelOp.invoke (RemoteCall.sendMessageToGroup "room1" "hi")] := by
  decide

/-- C1 amended: on the `reconnected` notification the client only sets the
service's connected flag — it performs no channel operation (so no
`JoinGroup` is re-issued for any tracked group, and there is no Pending
state to fall back to), the tracked set is untouched, and a `send` to a
tracked group immediately afterwards is issued to the network and succeeds
rather than failing with `GroupNotReady`. -/
theorem C1_reconnected_no_group_replay (st : HookState) (e g m : String)
    (_hg : g ∈ st.joinedGroups) (hhc : st.service.hasConnection = true) :
    (useSignalR.reconnectedDelivered st).2 = [] ∧
    (useSignalR.reconnectedDelivered st).1.joinedGroups = st.joinedGroups ∧
    (useSignalR.reconnectedDelivered st).1.service.isConnected = true ∧
    (useSignalR.sendMessageToGroup (useSignalR.reconnectedDelivered st).1
        true e g m).2.1 = true ∧
    (useSignalR.sendMessageToGroup (useSignalR.reconnectedDelivered st).1
        true e g m).2.2
      = [ChannelOp.invoke (RemoteCall.sendMessageToGroup g m)] := by
  refine ⟨rfl, rfl, rfl, ?_, ?_⟩ <;>
    simp [useSignalR.sendMessageToGroup, SignalRService.sendMessageToGroup,
      useSignalR.reconnectedDelivered, SignalRService.onreconnected, hhc]

/-- Witness for the amended C1 at the state tracking `"room1"`. -/
theorem C1_reconnected_no_group_replay_witness :
    ("room1" ∈ stTracked.joinedGroups ∧ stTracked.service.hasConnection = true) ∧
    ((useSignalR.reconnectedDelivered stTracked).2 = [] ∧
    (useSignalR.reconnectedDelivered stTracked).1.joinedGroups
      = stTracked.joinedGroups ∧
    (useSignalR.reconnectedDelivered stTracked).1.service.isConnected = true ∧
    (useSignalR.sendMessageToGroup (useSignalR.reconnectedDelivered stTracked).1
        true "ie" "room1" "hi").2.1 = true ∧
    (useSignalR.sendMessageToGroup (useSignalR.reconnectedDelivered stTracked).1
        true "ie" "room1" "hi").2.2
      = [ChannelOp.invoke (RemoteCall.sendMessageToGroup "room1" "hi")]) :=
  ⟨⟨by decide, rfl⟩,
   C1_reconnected_no_group_replay stTracked "ie" "room1" "hi" (by decide) rfl⟩

/-- C5 counterexample: with the connection established, `joinGroup("")`
does not fail with `InvalidGroupName` — the remote `JoinGroup` invoke is
issued with the empty name, the call reports success, no error is recorded,
and the empty name is even added to the tracked set. -/
theorem C5_counterexample :
    (useSignalR.joinGroup stConnected true "ie" "").2.2
      = [ChannelOp.invoke (RemoteCall.joinGroup "")] ∧
    (useSignalR.joinGroup stConnected true "ie" "").2.1 = true ∧
    (useSignalR.joinGroup stConnected true "ie" "").1.connectionError = none ∧
    (useSignalR.joinGroup stConnected true "ie" "").1.joinedGroups = [""] := by
  decide

/-- C5 amended: `join` performs no group-name validation — whenever the
connection is established, `join(name)` issues the remote `JoinGroup` invoke
for every name, the empty and whitespace names included, and its result just
mirrors the invoke's outcome.  (Only a missing connection fails before the
remote call, with the `NotConnected`-classified error.) -/
theorem C5_join_issues_invoke_for_any_name (st : HookState) (ok : Bool)
    (e g : String) (hic : st.service.isConnected = true)
    (hhc : st.service.hasConnection = true) :
    (useSignalR.joinGroup st ok e g).2.2
      = [ChannelOp.invoke (RemoteCall.joinGroup g)] ∧
    (useSignalR.joinGroup st ok e g).2.1 = ok := by
  cases ok <;>
    simp [useSignalR.joinGroup, SignalRService.joinGroup, hic, hhc]

/-- Witness for the amended C5: joining the empty name while connected. -/
theorem C5_join_issues_invoke_witness :
    (stConnected.service.isConnected = true ∧
      stConnected.service.hasConnection = true) ∧
    ((useSignalR.joinGroup stConnected true "ie" "").2.2
      = [ChannelOp.invoke (RemoteCall.joinGroup "")] ∧
    (useSignalR.joinGroup stConnected true "ie" "").2.1 = true) :=
  ⟨⟨rfl, rfl⟩,
   C5_join_issues_invoke_for_any_name stConnected true "ie" "" rfl rfl⟩

/-- C6 counterexample: with the connection established, a `send` with a
blank body to a group that is not tracked at all does not fail with
`EmptyMessage` or `GroupNotReady` — the remote `SendMessageToGroup` invoke
is issued and the call reports success. -/
theorem C6_counterexample :
    (useSignalR.sendMessageToGroup stConnected true "ie" "room1" "").2.1 = true ∧
    (useSignalR.sendMessageToGroup stConnected true "ie" "room1" "").2.2
      = [ChannelOp.invoke (RemoteCall.sendMessageToGroup "room1" "")] ∧
    stConnected.joinedGroups = [] := by
  decide

/-- C6 amended: `send` performs no body or membership validation — whenever
the connection is established, the remote `SendMessageToGroup` invoke is
issued for every body (blank included) and every group (tracked or not),
the result mirrors the invoke's outcome, and the tracked set is untouched.
(Only a missing connection fails before the remote call, with the
`NotConnected`-classified error.) -/
theorem C6_send_without_validation (st : HookState) (ok : Bool)
    (e g m : String) (hic : st.service.isConnected = true)
    (hhc : st.service.hasConnection = true) :
    (useSignalR.sendMessageToGroup st ok e g m).2.2
      = [ChannelOp.invoke (RemoteCall.sendMessageToGroup g m)] ∧
    (useSignalR.sendMessageToGroup st ok e g m).2.1 = ok ∧
    (useSignalR.sendMessageToGroup st ok e g m).1.joinedGroups
      = st.joinedGroups := by
  cases ok <;>
    simp [useSignalR.sendMessageToGroup, SignalRService.sendMessageToGroup,
      hic, hhc]

/-- Witness for the amended C6: blank body, untracked group, connected. -/
theorem C6_send_without_validation_witness :
    (stConnected.service.isConnected = true ∧
      stConnected.service.hasConnection = true) ∧
    ((useSignalR.sendMessageToGroup stConnected true "ie" "room1" "").2.2
      = [ChannelOp.invoke (RemoteCall.sendMessageToGroup "room1" "")] ∧
    (useSignalR.sendMessageToGroup stConnected true "ie" "room1" "").2.1 = true ∧
    (useSignalR.sendMessageToGroup stConnected true "ie" "room1" "").1.joinedGroups
      = stConnected.joinedGroups) :=
  ⟨⟨rfl, rfl⟩,
   C6_send_without_validation stConnected true "ie" "room1" "" rfl rfl⟩

/-- C7 counterexample: with `"room1"` tracked and the connection
established, `leaveGroup("b")` for the untracked name `"b"` does not fail
with `UnknownGroup` — the remote `LeaveGroup` invoke is issued and the call
reports success; the tracked set is unchanged, as the claim says. -/
theorem C7_counterexample :
    (useSignalR.leaveGroup stTracked true "ie" "b").2.1 = true ∧
    (useSignalR.leaveGroup stTracked true "ie" "b").2.2
      = [ChannelOp.invoke (RemoteCall.leaveGroup "b")] ∧
    (useSignalR.leaveGroup stTracked true "ie" "b").1.joinedGroups = ["room1"] ∧
    (useSignalR.leaveGroup stTracked true "ie" "b").1.connectionError = none := by
  decide

/-- C7 amended: `leave` of an untracked name does not fail with
`UnknownGroup` — whenever the connection is established (and the invoke
resolves), the remote `LeaveGroup` invoke is issued for the untracked name
and the call succeeds; the tracked set is exactly unchanged and no error is
recorded. -/
theorem C7_leave_untracked_invokes_and_succeeds (st : HookState)
    (e g : String) (hic : st.service.isConnected = true)
    (hhc : st.service.hasConnection = true) (hg : g ∉ st.joinedGroups) :
    (useSignalR.leaveGroup st true e g).2.1 = true ∧
    (useSignalR.leaveGroup st true e g).2.2
      = [ChannelOp.invoke (RemoteCall.leaveGroup g)] ∧
    (useSignalR.leaveGroup st true e g).1.joinedGroups = st.joinedGroups ∧
    (useSignalR.leaveGroup st true e g).1.connectionError
      = st.connectionError := by
  simp [useSignalR.leaveGroup, SignalRService.leaveGroup, hic, hhc]
  exact fun a ha hag => hg (hag ▸ ha)

/-- Witness for the amended C7: leaving `"b"` while only `"room1"` is
tracked. -/
theorem C7_leave_untracked_witness :
    (stTracked.service.isConnected = true ∧
      stTracked.service.hasConnection = true ∧ "b" ∉ stTracked.joinedGroups) ∧
    ((useSignalR.leaveGroup stTracked true "ie" "b").2.1 = true ∧
    (useSignalR.leaveGroup stTracked true "ie" "b").2.2
      = [ChannelOp.invoke (RemoteCall.leaveGroup "b")] ∧
    (useSignalR.leaveGroup stTracked true "ie" "b").1.joinedGroups
      = stTracked.joinedGroups ∧
    (useSignalR.leaveGroup stTracked true "ie" "b").1.connectionError
      = stTracked.connectionError) :=
  ⟨⟨rfl, rfl, by decide⟩,
   C7_leave_untracked_invokes_and_succeeds stTracked "ie" "b" rfl rfl (by decide)⟩
